import Mathlib

/-!
Shallow embedding of the frame-presentation / synchronization core of the
`real-time-rendering` repository (files `source/realtime/swapchain.{h,cc}`,
`source/realtime/renderer.{h,cc}`, `source/realtime/window.{h,cc}`,
`source/realtime/device.cc`), together with theorems settling the spec's
claims about it.
-/

namespace RT

/-- Vulkan image/data formats that occur in the sources (other formats are
collapsed into a numeric constructor). -/
inductive VkFormat where
  | B8G8R8A8_SRGB
  | D32_SFLOAT
  | D32_SFLOAT_S8_UINT
  | D24_UNORM_S8_UINT
  | other (n : Nat)
deriving DecidableEq, Repr

/-- Vulkan color spaces. -/
inductive VkColorSpace where
  | SRGB_NONLINEAR
  | other (n : Nat)
deriving DecidableEq, Repr

/-- `VkSurfaceFormatKHR`: a (format, colorSpace) pair. -/
structure VkSurfaceFormatKHR where
  format : VkFormat
  colorSpace : VkColorSpace
deriving DecidableEq, Repr

/-- Vulkan present modes. -/
inductive VkPresentModeKHR where
  | IMMEDIATE
  | MAILBOX
  | FIFO
  | FIFO_RELAXED
  | other (n : Nat)
deriving DecidableEq, Repr

/-- `VkExtent2D`: width/height as 32-bit unsigned values, modelled as `Nat`. -/
structure VkExtent2D where
  width : Nat
  height : Nat
deriving DecidableEq, Repr

/-- The largest `u32` value, `std::numeric_limits<u32>::max()`. -/
def U32_MAX : Nat := 2 ^ 32 - 1

/-- `VkSurfaceCapabilitiesKHR`, restricted to the fields read by the
swapchain code. -/
structure VkSurfaceCapabilitiesKHR where
  minImageCount : Nat
  maxImageCount : Nat
  currentExtent : VkExtent2D
  minImageExtent : VkExtent2D
  maxImageExtent : VkExtent2D
deriving DecidableEq, Repr

/-- The `VkResult` values the renderer and swapchain distinguish; every
result that is none of `VK_SUCCESS`, `VK_SUBOPTIMAL_KHR`,
`VK_ERROR_OUT_OF_DATE_KHR` is collapsed into `otherError`. -/
inductive VkResult where
  | VK_SUCCESS
  | VK_SUBOPTIMAL_KHR
  | VK_ERROR_OUT_OF_DATE_KHR
  | otherError (n : Nat)
deriving DecidableEq, Repr

/-- `Window::VERTICAL_SYNC` (window.h line 41): `constexpr static auto
VERTICAL_SYNC = false;`. -/
def Window.VERTICAL_SYNC : Bool := false

/-- `Swapchain::MAX_FRAMES_IN_FLIGHT` (swapchain.h line 36). -/
def MAX_FRAMES_IN_FLIGHT : Nat := 2

/-- `choose_swap_surface_format` (swapchain.cc lines 37-44): scan the list
for `B8G8R8A8_SRGB` + `SRGB_NONLINEAR`; fall back to the first entry.
`formats[0]` on an empty vector is undefined behaviour in the source, so the
embedding returns `none` there. -/
def choose_swap_surface_format (formats : List VkSurfaceFormatKHR) :
    Option VkSurfaceFormatKHR :=
  match formats.find? (fun f =>
      f.format == VkFormat.B8G8R8A8_SRGB &&
      f.colorSpace == VkColorSpace.SRGB_NONLINEAR) with
  | some f => some f
  | none => formats.head?

/-- `choose_swap_present_mode` (swapchain.cc lines 49-58): when vertical
sync is disabled, scan for `MAILBOX` and return it if present; otherwise
(and always when vertical sync is enabled) return `FIFO`. -/
def choose_swap_present_mode (modes : List VkPresentModeKHR) :
    VkPresentModeKHR :=
  if !Window.VERTICAL_SYNC then
    match modes.find? (fun m => m == VkPresentModeKHR.MAILBOX) with
    | some m => m
    | none => VkPresentModeKHR.FIFO
  else VkPresentModeKHR.FIFO

/-- `Swapchain::choose_swap_extent` (swapchain.cc lines 446-458): if the
reported current extent has a definite width (not `u32` max), return it;
otherwise clamp the window extent componentwise between the surface's
minimum and maximum image extents. -/
def choose_swap_extent (window_extent : VkExtent2D)
    (capabilities : VkSurfaceCapabilitiesKHR) : VkExtent2D :=
  if capabilities.currentExtent.width ≠ U32_MAX then
    capabilities.currentExtent
  else
    { width := max capabilities.minImageExtent.width
        (min capabilities.maxImageExtent.width window_extent.width),
      height := max capabilities.minImageExtent.height
        (min capabilities.maxImageExtent.height window_extent.height) }

/-- The format fields of a `Swapchain` that `compare_swap_formats` reads
(`swapchain_image_format`, `swapchain_depth_format`; swapchain.h
lines 139-140). -/
structure SwapchainFormats where
  swapchain_image_format : VkFormat
  swapchain_depth_format : VkFormat
deriving DecidableEq, Repr

/-- `Swapchain::compare_swap_formats` (swapchain.cc lines 202-205). -/
def compare_swap_formats (a b : SwapchainFormats) : Bool :=
  (a.swapchain_depth_format == b.swapchain_depth_format) &&
  (a.swapchain_image_format == b.swapchain_image_format)

/-- `Device::find_supported_format` (device.cc lines 221-235), specialised
to a fixed tiling: return the first candidate the device supports, fatal
(`none`) if no candidate is supported. `supported` abstracts the
`vkGetPhysicalDeviceFormatProperties` feature test for the requested
tiling and features. -/
def find_supported_format (supported : VkFormat → Bool)
    (candidates : List VkFormat) : Option VkFormat :=
  candidates.find? supported

/-- `Swapchain::find_depth_format` (swapchain.cc lines 136-140): probe the
fixed depth-candidate list against the device. -/
def find_depth_format (supported : VkFormat → Bool) : Option VkFormat :=
  find_supported_format supported
    [VkFormat.D32_SFLOAT, VkFormat.D32_SFLOAT_S8_UINT,
     VkFormat.D24_UNORM_S8_UINT]

/-- The format pair a swapchain build derives from the device's reported
surface formats and depth-format support (`create_swapchain` line 268 sets
`swapchain_image_format`; `create_depth_resources` line 296 sets
`swapchain_depth_format`). `none` when the source would hit undefined
behaviour or a fatal error. -/
def build_swapchain_formats (formats : List VkSurfaceFormatKHR)
    (depth_supported : VkFormat → Bool) : Option SwapchainFormats :=
  match choose_swap_surface_format formats, find_depth_format depth_supported with
  | some color, some depth =>
      some { swapchain_image_format := color.format,
             swapchain_depth_format := depth }
  | _, _ => none

/-! ### Renderer frame state machine (renderer.cc) -/

/-- The renderer fields the frame state machine reads and writes
(`current_frame_index`, `frame_started`; renderer.h). -/
structure RendererState where
  current_frame_index : Nat
  frame_started : Bool
deriving DecidableEq, Repr

/-- The observable outcome of `Renderer::begin_frame`. -/
inductive BeginFrameOutcome where
  /-- `error(64, ...)`: process aborted. -/
  | fatal
  /-- returned `nullptr`: no frame this tick. -/
  | noFrame
  /-- returned the command buffer of the given slot and began recording. -/
  | frame (slot : Nat)
deriving DecidableEq, Repr

/-- Result record for the embedding of `Renderer::begin_frame`. -/
structure BeginFrameResult where
  outcome : BeginFrameOutcome
  /-- whether `recreate_swapchain()` was invoked on this path. -/
  recreated : Bool
  state : RendererState
deriving DecidableEq, Repr

/-- `Renderer::begin_frame` (renderer.cc lines 75-98) as a function of the
`vkAcquireNextImageKHR` result: on `VK_ERROR_OUT_OF_DATE_KHR` recreate the
swapchain and return `nullptr`; on any result other than `VK_SUCCESS` /
`VK_SUBOPTIMAL_KHR` abort fatally; otherwise set `frame_started` and return
the current slot's command buffer. -/
def begin_frame (st : RendererState) (result : VkResult) : BeginFrameResult :=
  if result = VkResult.VK_ERROR_OUT_OF_DATE_KHR then
    { outcome := BeginFrameOutcome.noFrame, recreated := true, state := st }
  else if result ≠ VkResult.VK_SUCCESS ∧ result ≠ VkResult.VK_SUBOPTIMAL_KHR then
    { outcome := BeginFrameOutcome.fatal, recreated := false, state := st }
  else
    { outcome := BeginFrameOutcome.frame st.current_frame_index,
      recreated := false,
      state := { st with frame_started := true } }

/-- Result record for the embedding of `Renderer::end_frame`. -/
structure EndFrameResult where
  /-- whether `error(64, ...)` aborted the process. -/
  fatal : Bool
  /-- whether `recreate_swapchain()` was invoked on this path. -/
  recreated : Bool
  /-- `Window::framebuffer_resized` after the call. -/
  window_resized : Bool
  state : RendererState
deriving DecidableEq, Repr

/-- `Renderer::end_frame` (renderer.cc lines 101-118) as a function of the
`submit_command_buffers` present result and the window's resize flag at
entry: if the result is `VK_ERROR_OUT_OF_DATE_KHR` or `VK_SUBOPTIMAL_KHR`,
or the window reports a resize, clear the resize flag and recreate the
swapchain; any other non-success result is fatal; in every non-fatal case
clear `frame_started` and advance `current_frame_index` modulo `F`
(`MAX_FRAMES_IN_FLIGHT`). `recreate_swapchain` itself does not touch the
resize flag (renderer.cc lines 185-205, window.cc lines 52-60). -/
def end_frame (F : Nat) (st : RendererState) (present_result : VkResult)
    (resized : Bool) : EndFrameResult :=
  if present_result = VkResult.VK_ERROR_OUT_OF_DATE_KHR ∨
     present_result = VkResult.VK_SUBOPTIMAL_KHR ∨ resized = true then
    { fatal := false, recreated := true, window_resized := false,
      state := { current_frame_index := (st.current_frame_index + 1) % F,
                 frame_started := false } }
  else if present_result ≠ VkResult.VK_SUCCESS then
    { fatal := true, recreated := false, window_resized := resized, state := st }
  else
    { fatal := false, recreated := false, window_resized := resized,
      state := { current_frame_index := (st.current_frame_index + 1) % F,
                 frame_started := false } }

/-! ### `Renderer::recreate_swapchain` as an event trace (renderer.cc 185-205) -/

/-- Observable events of one `recreate_swapchain` invocation. -/
inductive RecreateEvent where
  /-- a call to `window.extent()` returning the given extent. -/
  | pollExtent (e : VkExtent2D)
  /-- a call to `glfwWaitEvents()`. -/
  | waitEvents
  /-- the call to `vkDeviceWaitIdle`. -/
  | deviceWaitIdle
  /-- construction of the new `Swapchain` against the given extent;
  `withPrevious` records whether the previous-chain constructor was used. -/
  | buildSwapchain (e : VkExtent2D) (withPrevious : Bool)
  /-- the `compare_swap_formats` call against the old chain. -/
  | compareFormats
  /-- `error(64, "... format has changed!")`. -/
  | fatalFormatMismatch
deriving DecidableEq, Repr

/-- An extent is degenerate when either dimension is zero
(renderer.cc line 189). -/
def degenerate (e : VkExtent2D) : Bool := e.width == 0 || e.height == 0

/-- The `while (extent.width == 0 or extent.height == 0)` loop of
`recreate_swapchain` (renderer.cc lines 189-192): repeatedly re-poll the
window extent and wait for events while the extent is degenerate. `polls`
lists the successive results of `window.extent()`; `none` models the loop
never observing a usable extent within the supplied poll results. -/
def poll_loop (polls : List VkExtent2D) (extent : VkExtent2D) :
    Option (List RecreateEvent × VkExtent2D) :=
  if degenerate extent then
    match polls with
    | [] => none
    | e :: rest =>
        match poll_loop rest e with
        | some (evs, final) =>
            some (RecreateEvent.pollExtent e :: RecreateEvent.waitEvents :: evs,
                  final)
        | none => none
  else
    some ([], extent)

/-- `Renderer::recreate_swapchain` (renderer.cc lines 185-205) as the trace
of its observable events: poll `window.extent()` (looping with
`glfwWaitEvents` while degenerate), then `vkDeviceWaitIdle`, then build the
new swapchain against the polled extent — with the previous chain when one
exists, followed by the `compare_swap_formats` check whose failure is
fatal. `first` is the result of the initial `window.extent()` call,
`polls` the results of the re-polls inside the loop; `formats_match` is
the value of `old->compare_swap_formats(*swapchain)`. -/
def recreate_swapchain (first : VkExtent2D) (polls : List VkExtent2D)
    (hasSwapchain : Bool) (formats_match : Bool) :
    Option (List RecreateEvent) :=
  match poll_loop polls first with
  | none => none
  | some (evs, extent) =>
      some (RecreateEvent.pollExtent first :: evs ++
        RecreateEvent.deviceWaitIdle ::
        (if hasSwapchain then
          RecreateEvent.buildSwapchain extent true ::
          RecreateEvent.compareFormats ::
          (if formats_match then [] else [RecreateEvent.fatalFormatMismatch])
        else
          [RecreateEvent.buildSwapchain extent false]))

/-- The step order the spec claims for `recreate`: the device-idle wait
happens before any poll of the surface extent. Modelled from the spec's
words, for comparison with the source-derived trace. -/
def recreate_claimed_order (tr : List RecreateEvent) : Prop :=
  ∀ i j ei ej, tr.get? i = some ei → tr.get? j = some ej →
    ei = RecreateEvent.deviceWaitIdle →
    (∃ e, ej = RecreateEvent.pollExtent e) → i < j

/-! ### The replacing `Swapchain` constructor (swapchain.cc 76-88) -/

/-- The two `shared_ptr` handles alive during the replacing constructor:
the by-value parameter `previous` and the member `previous`
(swapchain.h line 137); `true` means the handle references the replaced
chain. -/
structure CtorState where
  param : Bool
  member : Bool
deriving DecidableEq, Repr

/-- Body of `Swapchain::Swapchain(Device&, VkExtent2D, shared_ptr<Swapchain>
previous)` (swapchain.cc lines 76-88) restricted to the two handles: the
member-initialiser `previous{ previous }` copies the parameter into the
member; `init()` touches neither handle; the statement `previous.reset()`
resolves the unqualified name to the constructor parameter, which shadows
the member inside the constructor body, so it is the parameter that is
reset. -/
def ctor_with_previous_body (s : CtorState) : CtorState :=
  let s := { s with member := s.param }
  { s with param := false }

/-- Whether the freshly constructed swapchain still holds a reference to
the replaced chain once the replacing constructor has returned (the
parameter is destroyed at return; the member persists). -/
def swapchain_keeps_previous_alive (arg : Bool) : Bool :=
  (ctor_with_previous_body { param := arg, member := false }).member

/-! ### Host/device synchronisation state machine
(`Swapchain::acquire_next_image`, `Swapchain::submit_command_buffers`,
`Swapchain::create_sync_objects`; swapchain.cc lines 143-189, 421-443) -/

/-- Successor of the current frame slot:
`current_frame = (current_frame + 1) % MAX_FRAMES_IN_FLIGHT`
(swapchain.cc line 187). -/
def nextFrame {F : Nat} (c : Fin F) : Fin F :=
  ⟨(c.val + 1) % F, Nat.mod_lt _ (Nat.lt_of_le_of_lt (Nat.zero_le _) c.isLt)⟩

/-- Synchronisation-relevant state of a swapchain with `F` frame slots and
`N` drawable images. `pending f = some i` means slot `f`'s in-flight fence
is unsignaled because a submission writing image `i` has not yet completed
on the device; `pending f = none` means the fence is signaled.
`imagesInFlight i` is the `images_in_flight` table entry for image `i`:
the slot whose fence was last registered against it (`VK_NULL_HANDLE` is
`none`). `acquired` is the image index obtained by `acquire_next_image`
and not yet submitted. -/
structure SyncState (F N : Nat) where
  currentFrame : Fin F
  pending : Fin F → Option (Fin N)
  imagesInFlight : Fin N → Option (Fin F)
  acquired : Option (Fin N)

/-- State after `create_sync_objects` (swapchain.cc lines 421-443): every
per-slot fence is created with `VK_FENCE_CREATE_SIGNALED_BIT` (no pending
work), and `images_in_flight` is filled with `VK_NULL_HANDLE`. -/
def initState (F N : Nat) (hF : 0 < F) : SyncState F N :=
  { currentFrame := ⟨0, hF⟩,
    pending := fun _ => none,
    imagesInFlight := fun _ => none,
    acquired := none }

/-- One step of the host/device system. `acquire` is
`Swapchain::acquire_next_image` (lines 143-150): its
`vkWaitForFences(in_flight_fences[current_frame])` has returned — the
current slot's fence is signaled — and the device hands out some image
index. `submit` is `Swapchain::submit_command_buffers` (lines 153-189):
when a fence is registered in `images_in_flight` for the acquired image,
its wait has returned (that fence is signaled); the current slot's fence
is registered against the image, reset and resubmitted (becoming pending
on that image), and the current slot advances. `complete` is the
asynchronous device finishing a submission and signaling its fence. -/
inductive Step {F N : Nat} : SyncState F N → SyncState F N → Prop where
  | acquire (s : SyncState F N) (i : Fin N)
      (hidle : s.acquired = none)
      (hwait : s.pending s.currentFrame = none) :
      Step s { s with acquired := some i }
  | submit (s : SyncState F N) (i : Fin N)
      (hacq : s.acquired = some i)
      (hwait : ∀ f, s.imagesInFlight i = some f → s.pending f = none) :
      Step s
        { currentFrame := nextFrame s.currentFrame,
          pending := Function.update s.pending s.currentFrame (some i),
          imagesInFlight := Function.update s.imagesInFlight i
            (some s.currentFrame),
          acquired := none }
  | complete (s : SyncState F N) (f : Fin F)
      (hbusy : s.pending f ≠ none) :
      Step s { s with pending := Function.update s.pending f none }

/-- States reachable from the post-construction state. -/
inductive Reachable (F N : Nat) (hF : 0 < F) : SyncState F N → Prop where
  | init : Reachable F N hF (initState F N hF)
  | step {s s' : SyncState F N} :
      Reachable F N hF s → Step s s' → Reachable F N hF s'

/-- The coupling invariant: any slot with unresolved work on image `i` is
the slot registered for `i` in the `images_in_flight` table. -/
def SyncInv {F N : Nat} (s : SyncState F N) : Prop :=
  ∀ t i, s.pending t = some i → s.imagesInFlight i = some t

/-- The renderer frame index produced by one successful `end_frame` from a
given index (used to state the cyclic-advance property). -/
def end_frame_index (F : Nat) (i : Nat) : Nat :=
  (end_frame F { current_frame_index := i, frame_started := true }
    VkResult.VK_SUCCESS false).state.current_frame_index

/-! ## Theorems -/

/-- C2: in the Idle state, `begin_frame` calls `recreate` and returns no
frame on `VK_ERROR_OUT_OF_DATE_KHR` (leaving the state Idle); begins
recording, transitions to Recording and returns the current slot's buffer
on `VK_SUCCESS` or `VK_SUBOPTIMAL_KHR`; and treats every other acquire
result as fatal, never as HardInvalid or SoftInvalid. -/
theorem begin_frame_spec (st : RendererState) (result : VkResult)
    (hidle : st.frame_started = false) :
    (result = VkResult.VK_ERROR_OUT_OF_DATE_KHR →
      (begin_frame st result).outcome = BeginFrameOutcome.noFrame ∧
      (begin_frame st result).recreated = true ∧
      (begin_frame st result).state.frame_started = false) ∧
    ((result = VkResult.VK_SUCCESS ∨ result = VkResult.VK_SUBOPTIMAL_KHR) →
      (begin_frame st result).outcome =
        BeginFrameOutcome.frame st.current_frame_index ∧
      (begin_frame st result).state.frame_started = true ∧
      (begin_frame st result).recreated = false) ∧
    (result ≠ VkResult.VK_ERROR_OUT_OF_DATE_KHR →
      result ≠ VkResult.VK_SUCCESS → result ≠ VkResult.VK_SUBOPTIMAL_KHR →
      (begin_frame st result).outcome = BeginFrameOutcome.fatal ∧
      (begin_frame st result).recreated = false) := by
  cases result <;> simp [begin_frame, hidle]

/-- Witness for `begin_frame_spec` at a concrete Idle state and a
successful acquire. -/
theorem begin_frame_spec_witness :
    (begin_frame { current_frame_index := 0, frame_started := false }
      VkResult.VK_SUCCESS).outcome = BeginFrameOutcome.frame 0 ∧
    (begin_frame { current_frame_index := 0, frame_started := false }
      VkResult.VK_SUCCESS).state.frame_started = true ∧
    (begin_frame { current_frame_index := 0, frame_started := false }
      VkResult.VK_SUCCESS).recreated = false :=
  (begin_frame_spec { current_frame_index := 0, frame_started := false }
    VkResult.VK_SUCCESS rfl).2.1 (Or.inl rfl)

/-- C5: whenever `end_frame` observes the window's resize flag set, or the
present result is SoftInvalid/HardInvalid, it invokes `recreate`; on every
path where `recreate` is invoked the resize flag ends up cleared, and on
every path where `recreate` is not invoked the flag keeps its entry
value (it is never cleared there). -/
theorem end_frame_resize_recreate (F : Nat) (st : RendererState)
    (result : VkResult) (resized : Bool) :
    (resized = true → (end_frame F st result resized).recreated = true) ∧
    ((result = VkResult.VK_SUBOPTIMAL_KHR ∨
      result = VkResult.VK_ERROR_OUT_OF_DATE_KHR) →
      (end_frame F st result resized).recreated = true) ∧
    ((end_frame F st result resized).recreated = true →
      (end_frame F st result resized).window_resized = false) ∧
    ((end_frame F st result resized).recreated = false →
      (end_frame F st result resized).window_resized = resized) := by
  cases resized <;> cases result <;> simp [end_frame]

/-- Witness for `end_frame_resize_recreate`: a successful present with the
resize flag set triggers `recreate`. -/
theorem end_frame_resize_recreate_witness :
    (end_frame 2 { current_frame_index := 0, frame_started := true }
      VkResult.VK_SUCCESS true).recreated = true :=
  (end_frame_resize_recreate 2
    { current_frame_index := 0, frame_started := true }
    VkResult.VK_SUCCESS true).1 rfl

/-- Every non-fatal `end_frame` advances the frame index by one modulo
`F` (helper for the cyclic theorem). -/
theorem end_frame_index_eq (F i : Nat) :
    end_frame_index F i = (i + 1) % F := by
  simp [end_frame_index, end_frame]

/-- Iterating the `end_frame` index advance `k` times adds `k` modulo `F`
(helper for the cyclic theorem). -/
theorem end_frame_index_iterate (F : Nat) (k : Nat) :
    ∀ i : Nat, i < F → (end_frame_index F)^[k] i = (i + k) % F := by
  induction k with
  | zero =>
      intro i hi
      simpa using (Nat.mod_eq_of_lt hi).symm
  | succ k ih =>
      intro i hi
      rw [Function.iterate_succ_apply', ih i hi, end_frame_index_eq,
        Nat.mod_add_mod, Nat.add_assoc]

/-- C6: every completed (non-fatal) `end_frame` sets the current frame
index to its old value plus one modulo `F = MAX_FRAMES_IN_FLIGHT`, and
from any starting index below `F`, `F` successive successful `end_frame`
calls return the index to its starting value. -/
theorem end_frame_cyclic (F : Nat) (hF : 0 < F) (st : RendererState)
    (result : VkResult) (resized : Bool)
    (hok : (end_frame F st result resized).fatal = false) :
    (end_frame F st result resized).state.current_frame_index =
      (st.current_frame_index + 1) % F ∧
    ∀ i : Nat, i < F → (end_frame_index F)^[F] i = i := by
  constructor
  · cases resized <;> cases result <;> simp_all [end_frame]
  · intro i hi
    rw [end_frame_index_iterate F F i hi, Nat.add_mod_right,
      Nat.mod_eq_of_lt hi]

/-- Witness for `end_frame_cyclic` with `F = 2`, starting index `1`, a
successful present and no resize. -/
theorem end_frame_cyclic_witness :
    (end_frame 2 { current_frame_index := 1, frame_started := true }
      VkResult.VK_SUCCESS false).state.current_frame_index = (1 + 1) % 2 ∧
    (end_frame_index 2)^[2] 1 = 1 := by
  have h := end_frame_cyclic 2 (by decide)
    { current_frame_index := 1, frame_started := true }
    VkResult.VK_SUCCESS false (by decide)
  exact ⟨h.1, h.2 1 (by decide)⟩

/-- C7: `compare_swap_formats` is true exactly when both the color and the
depth formats of the two chains agree; it is reflexive; and two chains
built from the same reported surface formats and the same depth-format
support compare equal. -/
theorem compare_swap_formats_spec :
    (∀ a b : SwapchainFormats, compare_swap_formats a b = true ↔
      (a.swapchain_image_format = b.swapchain_image_format ∧
       a.swapchain_depth_format = b.swapchain_depth_format)) ∧
    (∀ a : SwapchainFormats, compare_swap_formats a a = true) ∧
    (∀ (formats : List VkSurfaceFormatKHR) (depth_supported : VkFormat → Bool)
       (f g : SwapchainFormats),
       build_swapchain_formats formats depth_supported = some f →
       build_swapchain_formats formats depth_supported = some g →
       compare_swap_formats f g = true) := by
  have hiff : ∀ a b : SwapchainFormats, compare_swap_formats a b = true ↔
      (a.swapchain_image_format = b.swapchain_image_format ∧
       a.swapchain_depth_format = b.swapchain_depth_format) := by
    intro a b
    simp [compare_swap_formats, and_comm]
  refine ⟨hiff, fun a => (hiff a a).mpr ⟨rfl, rfl⟩, ?_⟩
  intro formats depth_supported f g hf hg
  have : f = g := Option.some.inj (hf.symm.trans hg)
  subst this
  exact (hiff f f).mpr ⟨rfl, rfl⟩

/-- Witness for `compare_swap_formats_spec`: reflexivity at a concrete
format pair. -/
theorem compare_swap_formats_spec_witness :
    compare_swap_formats
      { swapchain_image_format := VkFormat.B8G8R8A8_SRGB,
        swapchain_depth_format := VkFormat.D32_SFLOAT }
      { swapchain_image_format := VkFormat.B8G8R8A8_SRGB,
        swapchain_depth_format := VkFormat.D32_SFLOAT } = true :=
  compare_swap_formats_spec.2.1
    { swapchain_image_format := VkFormat.B8G8R8A8_SRGB,
      swapchain_depth_format := VkFormat.D32_SFLOAT }

/-- C8: for every non-empty present-mode list, the selected mode is
`MAILBOX` whenever `MAILBOX` is reported, and `FIFO` otherwise. -/
theorem choose_swap_present_mode_spec (modes : List VkPresentModeKHR)
    (hne : modes ≠ []) :
    (VkPresentModeKHR.MAILBOX ∈ modes →
      choose_swap_present_mode modes = VkPresentModeKHR.MAILBOX) ∧
    (VkPresentModeKHR.MAILBOX ∉ modes →
      choose_swap_present_mode modes = VkPresentModeKHR.FIFO) := by
  constructor
  · intro hmem
    unfold choose_swap_present_mode Window.VERTICAL_SYNC
    simp only [Bool.not_false, if_true]
    cases hfind : modes.find? (fun m => m == VkPresentModeKHR.MAILBOX) with
    | some m =>
        have hm := List.find?_some hfind
        simpa using hm
    | none =>
        rw [List.find?_eq_none] at hfind
        have hcontra := hfind _ hmem
        simp at hcontra
  · intro hnot
    unfold choose_swap_present_mode Window.VERTICAL_SYNC
    simp only [Bool.not_false, if_true]
    cases hfind : modes.find? (fun m => m == VkPresentModeKHR.MAILBOX) with
    | some m =>
        have hmem := List.mem_of_find?_eq_some hfind
        have hm : m = VkPresentModeKHR.MAILBOX := by
          simpa using List.find?_some hfind
        exact absurd (hm ▸ hmem) hnot
    | none => rfl

/-- Witness for `choose_swap_present_mode_spec`: a list containing
`MAILBOX` yields `MAILBOX`. -/
theorem choose_swap_present_mode_spec_witness :
    choose_swap_present_mode
      [VkPresentModeKHR.FIFO, VkPresentModeKHR.MAILBOX] =
      VkPresentModeKHR.MAILBOX :=
  (choose_swap_present_mode_spec
    [VkPresentModeKHR.FIFO, VkPresentModeKHR.MAILBOX] (by decide)).1
    (by decide)

/-- C9 counterexample: on a capability report whose definite current
extent lies below the reported minimum image extent, `choose_swap_extent`
returns the current extent unclamped, so the selected extent does not lie
within the reported minimum and maximum image extents. -/
theorem choose_swap_extent_counterexample :
    ¬ ((VkSurfaceCapabilitiesKHR.mk 1 2 ⟨0, 0⟩ ⟨1, 1⟩ ⟨2, 2⟩).minImageExtent.width ≤
        (choose_swap_extent ⟨800, 600⟩
          (VkSurfaceCapabilitiesKHR.mk 1 2 ⟨0, 0⟩ ⟨1, 1⟩ ⟨2, 2⟩)).width ∧
       (choose_swap_extent ⟨800, 600⟩
          (VkSurfaceCapabilitiesKHR.mk 1 2 ⟨0, 0⟩ ⟨1, 1⟩ ⟨2, 2⟩)).width ≤
        (VkSurfaceCapabilitiesKHR.mk 1 2 ⟨0, 0⟩ ⟨1, 1⟩ ⟨2, 2⟩).maxImageExtent.width ∧
       (VkSurfaceCapabilitiesKHR.mk 1 2 ⟨0, 0⟩ ⟨1, 1⟩ ⟨2, 2⟩).minImageExtent.height ≤
        (choose_swap_extent ⟨800, 600⟩
          (VkSurfaceCapabilitiesKHR.mk 1 2 ⟨0, 0⟩ ⟨1, 1⟩ ⟨2, 2⟩)).height ∧
       (choose_swap_extent ⟨800, 600⟩
          (VkSurfaceCapabilitiesKHR.mk 1 2 ⟨0, 0⟩ ⟨1, 1⟩ ⟨2, 2⟩)).height ≤
        (VkSurfaceCapabilitiesKHR.mk 1 2 ⟨0, 0⟩ ⟨1, 1⟩ ⟨2, 2⟩).maxImageExtent.height) := by
  decide

/-- C9 (amended): when the reported current extent is definite (width not
`u32` max) it is returned unchanged, otherwise the window extent is
clamped componentwise to `[minImageExtent, maxImageExtent]`; provided the
capability report is well-formed — the minimum image extent does not
exceed the maximum, and a definite current extent lies within the
bounds — the selected extent lies within the reported minimum and maximum
image extents in both width and height. -/
theorem choose_swap_extent_spec (w : VkExtent2D)
    (c : VkSurfaceCapabilitiesKHR)
    (hw : c.minImageExtent.width ≤ c.maxImageExtent.width)
    (hh : c.minImageExtent.height ≤ c.maxImageExtent.height)
    (hcur : c.currentExtent.width ≠ U32_MAX →
      c.minImageExtent.width ≤ c.currentExtent.width ∧
      c.currentExtent.width ≤ c.maxImageExtent.width ∧
      c.minImageExtent.height ≤ c.currentExtent.height ∧
      c.currentExtent.height ≤ c.maxImageExtent.height) :
    (c.currentExtent.width ≠ U32_MAX →
      choose_swap_extent w c = c.currentExtent) ∧
    (c.currentExtent.width = U32_MAX →
      choose_swap_extent w c =
        { width := max c.minImageExtent.width
            (min c.maxImageExtent.width w.width),
          height := max c.minImageExtent.height
            (min c.maxImageExtent.height w.height) }) ∧
    (c.minImageExtent.width ≤ (choose_swap_extent w c).width ∧
     (choose_swap_extent w c).width ≤ c.maxImageExtent.width ∧
     c.minImageExtent.height ≤ (choose_swap_extent w c).height ∧
     (choose_swap_extent w c).height ≤ c.maxImageExtent.height) := by
  unfold choose_swap_extent
  by_cases h : c.currentExtent.width = U32_MAX
  · rw [if_neg (not_not_intro h)]
    exact ⟨fun hc => absurd h hc, fun _ => rfl,
      le_max_left _ _, max_le hw (min_le_left _ _),
      le_max_left _ _, max_le hh (min_le_left _ _)⟩
  · rw [if_pos h]
    exact ⟨fun _ => rfl, fun hc => absurd hc h, hcur h⟩

/-- Witness for `choose_swap_extent_spec` at a well-formed capability
report with a definite current extent. -/
theorem choose_swap_extent_spec_witness :
    ((VkSurfaceCapabilitiesKHR.mk 2 3 ⟨800, 600⟩ ⟨1, 1⟩ ⟨4096, 4096⟩).currentExtent.width ≠ U32_MAX →
      choose_swap_extent ⟨1024, 768⟩
        (VkSurfaceCapabilitiesKHR.mk 2 3 ⟨800, 600⟩ ⟨1, 1⟩ ⟨4096, 4096⟩) =
        (VkSurfaceCapabilitiesKHR.mk 2 3 ⟨800, 600⟩ ⟨1, 1⟩ ⟨4096, 4096⟩).currentExtent) ∧
    ((VkSurfaceCapabilitiesKHR.mk 2 3 ⟨800, 600⟩ ⟨1, 1⟩ ⟨4096, 4096⟩).currentExtent.width = U32_MAX →
      choose_swap_extent ⟨1024, 768⟩
        (VkSurfaceCapabilitiesKHR.mk 2 3 ⟨800, 600⟩ ⟨1, 1⟩ ⟨4096, 4096⟩) =
        { width := max 1 (min 4096 1024), height := max 1 (min 4096 768) }) ∧
    (1 ≤ (choose_swap_extent ⟨1024, 768⟩
        (VkSurfaceCapabilitiesKHR.mk 2 3 ⟨800, 600⟩ ⟨1, 1⟩ ⟨4096, 4096⟩)).width ∧
     (choose_swap_extent ⟨1024, 768⟩
        (VkSurfaceCapabilitiesKHR.mk 2 3 ⟨800, 600⟩ ⟨1, 1⟩ ⟨4096, 4096⟩)).width ≤ 4096 ∧
     1 ≤ (choose_swap_extent ⟨1024, 768⟩
        (VkSurfaceCapabilitiesKHR.mk 2 3 ⟨800, 600⟩ ⟨1, 1⟩ ⟨4096, 4096⟩)).height ∧
     (choose_swap_extent ⟨1024, 768⟩
        (VkSurfaceCapabilitiesKHR.mk 2 3 ⟨800, 600⟩ ⟨1, 1⟩ ⟨4096, 4096⟩)).height ≤ 4096) :=
  choose_swap_extent_spec ⟨1024, 768⟩
    (VkSurfaceCapabilitiesKHR.mk 2 3 ⟨800, 600⟩ ⟨1, 1⟩ ⟨4096, 4096⟩)
    (by decide) (by decide) (fun _ => by decide)

/-- C4: after the replacing constructor has run, the member `previous`
still references the replaced chain — the `previous.reset()` statement
resets the shadowing constructor parameter, not the member — so the new
chain keeps the replaced chain alive, contrary to the documented intent
of releasing it once the new chain is built. -/
theorem swapchain_previous_retained :
    swapchain_keeps_previous_alive true = true := rfl

/-- C3 counterexample: in a concrete run of `recreate_swapchain` with a
previous chain, the extent poll happens before the device-idle wait
(position 0 versus position 1), refuting the claimed step order; and in a
concrete run without a previous chain no `compare_swap_formats` check
occurs at all. -/
theorem recreate_order_counterexample :
    recreate_swapchain ⟨800, 600⟩ [] true true =
      some [RecreateEvent.pollExtent ⟨800, 600⟩, RecreateEvent.deviceWaitIdle,
            RecreateEvent.buildSwapchain ⟨800, 600⟩ true,
            RecreateEvent.compareFormats] ∧
    ¬ recreate_claimed_order
        [RecreateEvent.pollExtent ⟨800, 600⟩, RecreateEvent.deviceWaitIdle,
         RecreateEvent.buildSwapchain ⟨800, 600⟩ true,
         RecreateEvent.compareFormats] ∧
    recreate_swapchain ⟨800, 600⟩ [] false true =
      some [RecreateEvent.pollExtent ⟨800, 600⟩, RecreateEvent.deviceWaitIdle,
            RecreateEvent.buildSwapchain ⟨800, 600⟩ false] := by
  refine ⟨by decide, ?_, by decide⟩
  intro h
  have := h 1 0 RecreateEvent.deviceWaitIdle
    (RecreateEvent.pollExtent ⟨800, 600⟩) rfl rfl rfl ⟨⟨800, 600⟩, rfl⟩
  omega

/-- Every successful run of the extent-polling loop ends on a
non-degenerate extent, and its trace consists only of extent polls and
event waits (helper for the recreate-order theorem). -/
theorem poll_loop_sound (polls : List VkExtent2D) :
    ∀ (first : VkExtent2D) (evs : List RecreateEvent) (extent : VkExtent2D),
      poll_loop polls first = some (evs, extent) →
      degenerate extent = false ∧
      ∀ ev ∈ evs, (∃ e, ev = RecreateEvent.pollExtent e) ∨
        ev = RecreateEvent.waitEvents := by
  induction polls with
  | nil =>
      intro first evs extent h
      unfold poll_loop at h
      split at h
      · exact absurd h (by simp)
      · rename_i hdeg
        rw [Option.some.injEq, Prod.mk.injEq] at h
        obtain ⟨hevs, hext⟩ := h
        subst hevs; subst hext
        exact ⟨Bool.eq_false_iff.mpr hdeg, by simp⟩
  | cons e rest ih =>
      intro first evs extent h
      rw [poll_loop] at h
      by_cases hdeg : degenerate first = true
      · rw [if_pos hdeg] at h
        cases hrec : poll_loop rest e with
        | some p =>
            obtain ⟨evs', final⟩ := p
            rw [hrec] at h
            simp only [Option.some.injEq, Prod.mk.injEq] at h
            obtain ⟨hevs, hext⟩ := h
            subst hevs; subst hext
            obtain ⟨hdegf, hall⟩ := ih e evs' final hrec
            refine ⟨hdegf, ?_⟩
            intro ev hev
            rw [List.mem_cons, List.mem_cons] at hev
            rcases hev with hev | hev | hev
            · exact Or.inl ⟨e, hev⟩
            · exact Or.inr hev
            · exact hall ev hev
        | none =>
            rw [hrec] at h
            exact absurd h (by simp)
      · rw [if_neg hdeg] at h
        simp only [Option.some.injEq, Prod.mk.injEq] at h
        obtain ⟨hevs, hext⟩ := h
        subst hevs; subst hext
        exact ⟨Bool.eq_false_iff.mpr hdeg, by simp⟩

/-- C3 (amended): every completed `recreate_swapchain` first polls the
surface extent (re-polling and waiting for events while it is
degenerate), then waits for the device to go idle, then rebuilds the
swapchain against the polled (non-degenerate) extent — with the previous
chain when one exists, in which case the `compare_swap_formats` check
follows the rebuild and a mismatch is fatal. -/
theorem recreate_swapchain_order (first : VkExtent2D)
    (polls : List VkExtent2D) (hasSwapchain formats_match : Bool)
    (tr : List RecreateEvent)
    (h : recreate_swapchain first polls hasSwapchain formats_match = some tr) :
    ∃ pollEvs extent,
      poll_loop polls first = some (pollEvs, extent) ∧
      degenerate extent = false ∧
      (∀ ev ∈ pollEvs, (∃ e, ev = RecreateEvent.pollExtent e) ∨
        ev = RecreateEvent.waitEvents) ∧
      tr = RecreateEvent.pollExtent first :: pollEvs ++
        RecreateEvent.deviceWaitIdle ::
        (if hasSwapchain then
          RecreateEvent.buildSwapchain extent true ::
          RecreateEvent.compareFormats ::
          (if formats_match then [] else [RecreateEvent.fatalFormatMismatch])
        else
          [RecreateEvent.buildSwapchain extent false]) := by
  unfold recreate_swapchain at h
  split at h
  · exact absurd h (by simp)
  · rename_i evs extent hrec
    rw [Option.some.injEq] at h
    obtain ⟨hdeg, hall⟩ := poll_loop_sound polls first evs extent hrec
    exact ⟨evs, extent, hrec, hdeg, hall, h.symm⟩

/-- Witness for `recreate_swapchain_order`: the run with one degenerate
poll before a usable extent. -/
theorem recreate_swapchain_order_witness :
    ∃ pollEvs extent,
      poll_loop [VkExtent2D.mk 800 600] ⟨0, 0⟩ = some (pollEvs, extent) ∧
      degenerate extent = false ∧
      (∀ ev ∈ pollEvs, (∃ e, ev = RecreateEvent.pollExtent e) ∨
        ev = RecreateEvent.waitEvents) ∧
      RecreateEvent.pollExtent ⟨0, 0⟩ ::
          RecreateEvent.pollExtent ⟨800, 600⟩ :: RecreateEvent.waitEvents ::
          RecreateEvent.deviceWaitIdle ::
          RecreateEvent.buildSwapchain ⟨800, 600⟩ true ::
          RecreateEvent.compareFormats :: [] =
        RecreateEvent.pollExtent ⟨0, 0⟩ :: pollEvs ++
          RecreateEvent.deviceWaitIdle ::
          (if true then
            RecreateEvent.buildSwapchain extent true ::
            RecreateEvent.compareFormats ::
            (if true then [] else [RecreateEvent.fatalFormatMismatch])
          else
            [RecreateEvent.buildSwapchain extent false]) :=
  recreate_swapchain_order ⟨0, 0⟩ [⟨800, 600⟩] true true
    (RecreateEvent.pollExtent ⟨0, 0⟩ ::
      RecreateEvent.pollExtent ⟨800, 600⟩ :: RecreateEvent.waitEvents ::
      RecreateEvent.deviceWaitIdle ::
      RecreateEvent.buildSwapchain ⟨800, 600⟩ true ::
      RecreateEvent.compareFormats :: []) (by decide)

/-- The coupling invariant holds in the post-construction state (helper
for the images-in-flight theorem). -/
theorem syncInv_init (F N : Nat) (hF : 0 < F) :
    SyncInv (initState F N hF) := by
  intro t i h
  simp [initState] at h

/-- The coupling invariant is preserved by every step (helper for the
images-in-flight theorem). -/
theorem syncInv_step {F N : Nat} {s s' : SyncState F N}
    (hinv : SyncInv s) (hstep : Step s s') : SyncInv s' := by
  cases hstep with
  | acquire i hidle hwait =>
      exact fun t j h => hinv t j h
  | submit i hacq hwait =>
      intro t j h
      dsimp only at h ⊢
      by_cases ht : t = s.currentFrame
      · subst ht
        rw [Function.update_same] at h
        have hj : j = i := (Option.some.inj h).symm
        subst hj
        rw [Function.update_same]
      · rw [Function.update_noteq ht] at h
        by_cases hj : j = i
        · subst hj
          have hreg := hinv t j h
          have hnone := hwait t hreg
          rw [hnone] at h
          exact absurd h (by simp)
        · rw [Function.update_noteq hj]
          exact hinv t j h
  | complete f hbusy =>
      intro t j h
      dsimp only at h ⊢
      by_cases ht : t = f
      · subst ht
        rw [Function.update_same] at h
        exact absurd h (by simp)
      · rw [Function.update_noteq ht] at h
        exact hinv t j h

/-- The coupling invariant holds in every reachable state (helper for the
images-in-flight theorem). -/
theorem syncInv_reachable (F N : Nat) (hF : 0 < F) (s : SyncState F N)
    (h : Reachable F N hF s) : SyncInv s := by
  induction h with
  | init => exact syncInv_init F N hF
  | step hr hs ih => exact syncInv_step ih hs

/-- C1: for every `F ≥ 1` and `N ≥ F`, in every state of the swapchain
synchronisation system reachable from construction — where
`submit_command_buffers` first waits on any fence already registered in
`images_in_flight` for the acquired image and only then registers the
current slot's fence and submits (the `Step.submit` rule) — no two frame
slots have unresolved in-flight work referencing the same drawable
image. -/
theorem images_in_flight_invariant (F N : Nat) (hF : 0 < F) (hN : F ≤ N)
    (s : SyncState F N) (hreach : Reachable F N hF s)
    (t t' : Fin F) (i : Fin N)
    (ht : s.pending t = some i) (ht' : s.pending t' = some i) : t = t' := by
  have h1 := syncInv_reachable F N hF s hreach t i ht
  have h2 := syncInv_reachable F N hF s hreach t' i ht'
  exact Option.some.inj (h1.symm.trans h2)

/-- Witness for `images_in_flight_invariant`: the state reached by one
acquire and one submit with `F = 2`, `N = 3`, where slot 0 has unresolved
work on image 0. -/
theorem images_in_flight_invariant_witness : (0 : Fin 2) = (0 : Fin 2) := by
  have h0 : Reachable 2 3 Nat.zero_lt_two (initState 2 3 Nat.zero_lt_two) :=
    Reachable.init
  have h1 := Reachable.step h0
    (Step.acquire (initState 2 3 Nat.zero_lt_two) (0 : Fin 3) rfl rfl)
  have h2 := Reachable.step h1
    (Step.submit _ (0 : Fin 3) rfl (fun f hf => Option.noConfusion hf))
  exact images_in_flight_invariant 2 3 Nat.zero_lt_two (by decide) _ h2
    0 0 0 (by decide) (by decide)

/-- C10: after `create_sync_objects`, every per-slot in-flight fence is
signaled (no pending work) and every `images_in_flight` entry is empty,
so the fence wait at the start of the first acquire returns immediately:
the acquire step is enabled in the initial state for every image. -/
theorem create_sync_objects_spec (F N : Nat) (hF : 0 < F) :
    (∀ f : Fin F, (initState F N hF).pending f = none) ∧
    (∀ i : Fin N, (initState F N hF).imagesInFlight i = none) ∧
    (initState F N hF).pending (initState F N hF).currentFrame = none ∧
    (∀ i : Fin N, Step (initState F N hF)
      { initState F N hF with acquired := some i }) :=
  ⟨fun _ => rfl, fun _ => rfl, rfl, fun i => Step.acquire _ i rfl rfl⟩

/-- Witness for `create_sync_objects_spec` at `F = 2`, `N = 3`. -/
theorem create_sync_objects_spec_witness :
    (∀ f : Fin 2, (initState 2 3 Nat.zero_lt_two).pending f = none) ∧
    (∀ i : Fin 3, (initState 2 3 Nat.zero_lt_two).imagesInFlight i = none) ∧
    (initState 2 3 Nat.zero_lt_two).pending
      (initState 2 3 Nat.zero_lt_two).currentFrame = none ∧
    (∀ i : Fin 3, Step (initState 2 3 Nat.zero_lt_two)
      { initState 2 3 Nat.zero_lt_two with acquired := some i }) :=
  create_sync_objects_spec 2 3 Nat.zero_lt_two

end RT
